import Mathlib

/-!
Verification development for the browser-proxy server
(`mcp-server/browser_proxy.py`).

The Python source is shallowly embedded below.  A `PageModel` records the
live, in-page observable state of one open tab together with oracles for
the driver operations whose outcome depends on the real browser
(`page.goto`, `page.fill`, `page.click` on a CSS selector, `page.evaluate`
of a user-supplied expression, and execution of a user-supplied Playwright
script).  A browser is a list of contexts, each a list of pages, exactly as
`browser.contexts[i].pages` enumerates them.  Injected probe scripts whose
text is fixed in the source (the focus/visibility probe, the tab-info probe,
the body-text read, and the three smart-click scans) are modelled as pure
functions of the page state, per the design note that in-page probing is an
opaque `evaluate` capability with page-side logic.

Functions return, besides their result, a trace of browser interactions
(`BrowserEvent`), which lets the ordering claims (what happens before an
error is raised) be stated and settled.
-/

deriving instance DecidableEq for Except

namespace BrowserProxy

/-- Rational addition written through `mkRat` so that it evaluates by
kernel reduction (the library's `Rat.add` is irreducible); proved equal to
the standard addition in `ratAdd_eq` below. -/
def ratAdd (a b : Rat) : Rat :=
  mkRat (a.num * (b.den : Int) + b.num * (a.den : Int)) (a.den * b.den)

/-- Halving written through `mkRat`; proved equal to division by two in
`ratHalf_eq` below. -/
def ratHalf (a : Rat) : Rat :=
  mkRat a.num (2 * a.den)

/-- Comparison by cross-multiplication; proved to agree with the standard
order in `ratLe_iff` below. -/
def ratLe (a b : Rat) : Bool :=
  a.num * (b.den : Int) ≤ b.num * (a.den : Int)

/-- Strict comparison by cross-multiplication; agrees with the standard
order (`ratLt_iff` below). -/
def ratLt (a b : Rat) : Bool :=
  a.num * (b.den : Int) < b.num * (a.den : Int)

/-- Rendered value coming back from the browser (result of a user-supplied
`page.evaluate` expression or of a Playwright script).  Kept abstract: the
claims never inspect its structure. -/
inductive JsonValue where
  | null
  | bool (b : Bool)
  | num (n : Int)
  | str (s : String)
deriving Repr, DecidableEq, Inhabited

/-- A value in the keyword-argument mapping of a dispatcher call.  The MCP
tool schemas (source lines 391-494) type every parameter: strings for
`url`, `wait_until`, `expression`, `target`, `selector`, `value`, `script`,
`path`; integer for `timeout`; boolean for `full_page`. -/
inductive ParamValue where
  | str (s : String)
  | int (n : Int)
  | bool (b : Bool)
deriving Repr, DecidableEq, Inhabited

/-- `kwargs`: the keyword arguments of one dispatcher invocation. -/
def Params : Type := List (String × ParamValue)

/-- `kwargs.get(k)` restricted to string-typed parameters (the tool schema
guarantees these parameters arrive as strings); `none` when absent. -/
def getStr? (kwargs : Params) (k : String) : Option String :=
  match List.lookup k kwargs with
  | some (ParamValue.str s) => some s
  | _ => none

/-- `kwargs.get(k, d)` for a string parameter with default `d`. -/
def getStrD (kwargs : Params) (k : String) (d : String) : String :=
  match getStr? kwargs k with
  | some s => s
  | none => d

/-- `kwargs.get(k, d)` for an integer parameter with default `d`. -/
def getIntD (kwargs : Params) (k : String) (d : Int) : Int :=
  match List.lookup k kwargs with
  | some (ParamValue.int n) => n
  | _ => d

/-- `kwargs.get(k, d)` for a boolean parameter with default `d`. -/
def getBoolD (kwargs : Params) (k : String) (d : Bool) : Bool :=
  match List.lookup k kwargs with
  | some (ParamValue.bool b) => b
  | _ => d

/-- `pat.isPrefixOf l` over characters, written out so that it evaluates
by kernel reduction. -/
def charsPrefix : List Char → List Char → Bool
  | [], _ => true
  | _ :: _, [] => false
  | a :: as, b :: bs => a == b && charsPrefix as bs

/-- Substring containment over characters: some suffix of `l` starts with
`pat` (Python `pat in s`, JavaScript `s.includes(pat)`). -/
def charsContain (pat : List Char) : List Char → Bool
  | [] => pat.isEmpty
  | c :: rest => charsPrefix pat (c :: rest) || charsContain pat rest

/-- Python `pat in s` / JavaScript `s.includes(pat)` on strings. -/
def containsStr (s pat : String) : Bool :=
  charsContain pat.toList s.toList

/-- Python `s.startswith(pre)` / the source's `target.startswith(...)`,
written over the character list so that it evaluates by kernel
reduction. -/
def strStarts (s pre : String) : Bool :=
  charsPrefix pre.toList s.toList

/-- Emptiness test of a string, written over the character list. -/
def strEmpty (s : String) : Bool :=
  s.data.isEmpty

/-- Python slicing `s[:n]`: the first `n` characters of `s` (all of `s`
when it is shorter), written over the character list so that it stops at
the end of the string. -/
def strTake (s : String) (n : Nat) : String :=
  String.mk (s.data.take n)

/-- Python truthiness test `not x` for an optional string: `None` and the
empty string are falsy. -/
def strFalsy : Option String → Bool
  | none => true
  | some s => strEmpty s

/-- Python `a or b` over two optional strings: returns `a`'s value when it
is truthy, otherwise `b` (used for `kwargs.get("target") or
kwargs.get("selector")`). -/
def pyOr (a b : Option String) : Option String :=
  match a with
  | some s => if strEmpty s then b else some s
  | none => b

/-- The errors the proxy raises: `RuntimeError("No pages open in browser")`
and the several `ValueError`s of the source, classified by the taxonomy the
specification gives them (`NoPagesError`, `InvalidParameterError`,
`IndexOutOfRangeError`, `UnknownActionError`, `OperationError`). -/
inductive ProxyError where
  | noPages
  | invalidParameter (msg : String)
  | indexOutOfRange (index lo hi : Int)
  | unknownAction (action : String)
  | operation (msg : String)
deriving Repr, DecidableEq

/-- A DOM bounding rectangle as returned by `getBoundingClientRect` on a
text range (`bottom = top + height`, `right = left + width`). -/
structure Rect where
  left : Rat
  top : Rat
  width : Rat
  height : Rat
deriving Repr, DecidableEq, Inhabited

/-- One text node of `document.body`, in tree-walker document order:
its trimmed text content, whether `parentElement` is non-null, and its
range's bounding rectangle. -/
structure TextNode where
  text : String
  hasParent : Bool
  rect : Rect
deriving Repr, DecidableEq, Inhabited

/-- One open tab.  Plain fields are the live in-page observables; the
function-typed fields are oracles for driver operations whose outcome the
real browser decides. -/
structure PageModel where
  /-- `page.url`: the driver's last-known URL. -/
  url : String
  /-- `document.title` as the in-page probes read it. -/
  title : String
  /-- `window.location.href` as the in-page probes read it. -/
  jsUrl : String
  /-- `window.location.hostname`. -/
  domain : String
  /-- `document.hasFocus()`. -/
  hasFocus : Bool
  /-- `document.visibilityState === 'visible'`. -/
  visible : Bool
  /-- the focus/visibility probe of `get_active_page` throws
  (page mid-navigation or closed). -/
  probeThrows : Bool
  /-- the title/url info probe of `list_all_tabs` / `switch_to_tab`
  throws. -/
  infoThrows : Bool
  /-- `document.body.innerText` when `document.body` exists. -/
  bodyText : Option String
  /-- `window.innerWidth`. -/
  viewportW : Rat
  /-- `window.innerHeight`. -/
  viewportH : Rat
  /-- body text nodes, document order, before any scroll. -/
  preDom : List TextNode
  /-- body text nodes after the scroll-into-view request and the 500 ms
  settle delay (rectangles move when the page scrolls). -/
  postDom : List TextNode
  /-- oracle: `page.click(selector, timeout=5000)`. -/
  cssClick : String → Except String Unit
  /-- oracle: `page.evaluate(expression)` for a user-supplied expression. -/
  evalJs : String → Except String JsonValue
  /-- oracle: executing a user Playwright script against this page. -/
  execPw : String → Except String JsonValue
  /-- oracle: `page.goto` outcome for the modelled call (`none` = success,
  `some msg` = the navigation raised). -/
  gotoError : Option String
  /-- oracle: `page.fill` outcome for the modelled call. -/
  fillError : Option String
deriving Inhabited

/-- Browser-level interactions, recorded in traces in the order the source
performs them. -/
inductive ClickEvent where
  | cssClick (selector : String) (timeoutMs : Int)
  | textScan
  | scrollRequest (idx : Option Nat)
  | settleWait (ms : Nat)
  | rescan
  | mouseClick (x y : Rat)
deriving Repr, DecidableEq

/-- Browser interactions at the dispatcher level. -/
inductive BrowserEvent where
  | enumeratePages
  | focusProbe (idx : Nat)
  | navigateAttempt (url wait_until : String) (timeout : Int)
  | evalAttempt (expression : String)
  | screenshotAttempt (fullPage : Bool)
  | contentQuery
  | clickOp (e : ClickEvent)
  | fillAttempt (selector value : String)
  | playwrightExec (script : String)
  | bringToFront (idx : Nat)
  | infoProbe (idx : Nat)
deriving Repr, DecidableEq

/-- The focus/visibility probe of `get_active_page` (source lines 203-216):
a page is active when the probe does not throw and reports
`document.hasFocus() && document.visibilityState === 'visible'`. -/
def passesProbe (p : PageModel) : Bool :=
  !p.probeThrows && (p.hasFocus && p.visible)

/-- Result of `get_active_page`: the chosen page, and whether the
"No page has focus, using first available" warning was logged. -/
structure ActivePageResult where
  page : PageModel
  fallbackWarning : Bool

/-- The scan loop of `get_active_page` (source lines 203-216): probe each
page in order, return the first for which the probe reports active; a
throwing probe is skipped (`except Exception: continue`).  Also returns
the trace of probe attempts actually issued. -/
def findActiveAux (i : Nat) : List PageModel → Option PageModel × List BrowserEvent
  | [] => (none, [])
  | p :: rest =>
    if passesProbe p then
      (some p, [BrowserEvent.focusProbe i])
    else
      let r := findActiveAux (i + 1) rest
      (r.1, BrowserEvent.focusProbe i :: r.2)

/-- `get_active_page` (source lines 187-220): flatten all pages of all
contexts; raise when none exist; otherwise return the first page whose
probe reports focused-and-visible, falling back (with a logged warning)
to the first page when no probe succeeds. -/
def get_active_page (contexts : List (List PageModel)) :
    Except ProxyError ActivePageResult × List BrowserEvent :=
  let all_pages := contexts.flatten
  match all_pages with
  | [] => (Except.error ProxyError.noPages, [BrowserEvent.enumeratePages])
  | first :: rest =>
    let r := findActiveAux 0 (first :: rest)
    ((match r.1 with
      | some p => Except.ok ⟨p, false⟩
      | none => Except.ok ⟨first, true⟩),
     BrowserEvent.enumeratePages :: r.2)

/-- One entry of the tab listing. -/
structure TabInfo where
  index : Nat
  title : String
  url : String
  active : Bool
  domain : String
deriving Repr, DecidableEq

/-- The per-tab body of `list_all_tabs` (source lines 230-256): on a
successful info probe report the live title/url/domain and
`active = hasFocus && visible`; when the probe throws, emit the
placeholder entry instead of omitting the tab. -/
def tabEntry (i : Nat) (p : PageModel) : TabInfo :=
  if p.infoThrows then
    { index := i, title := "(Loading...)", url := p.url, active := false, domain := "" }
  else
    { index := i, title := p.title, url := p.jsUrl,
      active := p.hasFocus && p.visible, domain := p.domain }

/-- Inner loop of `list_all_tabs` over the pages of one context, threading
the running `tab_index`. -/
def listTabsPages (i : Nat) : List PageModel → List TabInfo
  | [] => []
  | p :: rest => tabEntry i p :: listTabsPages (i + 1) rest

/-- Outer loop of `list_all_tabs` over the contexts, threading the running
`tab_index` across context boundaries. -/
def listTabsCtxs (i : Nat) : List (List PageModel) → List TabInfo
  | [] => []
  | ctx :: rest => listTabsPages i ctx ++ listTabsCtxs (i + ctx.length) rest

/-- `list_all_tabs` (source lines 222-260). -/
def list_all_tabs (contexts : List (List PageModel)) : List TabInfo :=
  listTabsCtxs 0 contexts

/-- The `{title, url}` payload `switch_to_tab` returns. -/
structure TabSwitchInfo where
  title : String
  url : String
deriving Repr, DecidableEq

/-- `switch_to_tab` (source lines 262-284): flatten the pages, reject an
index outside `[0, pageCount-1]` with the out-of-range error reporting
that bound, otherwise bring the indexed page to the front and report its
live title/url, substituting the `Unknown`/driver-url fallback when the
post-switch info probe throws. -/
def switch_to_tab (contexts : List (List PageModel)) (index : Int) :
    Except ProxyError TabSwitchInfo × List BrowserEvent :=
  if index < 0 || (contexts.flatten.length : Int) ≤ index then
    (Except.error (ProxyError.indexOutOfRange index 0
       ((contexts.flatten.length : Int) - 1)),
     [BrowserEvent.enumeratePages])
  else
    if (contexts.flatten.getD index.toNat default).infoThrows then
      (Except.ok { title := "Unknown",
                   url := (contexts.flatten.getD index.toNat default).url },
       [BrowserEvent.enumeratePages, BrowserEvent.bringToFront index.toNat,
        BrowserEvent.infoProbe index.toNat])
    else
      (Except.ok { title := (contexts.flatten.getD index.toNat default).title,
                   url := (contexts.flatten.getD index.toNat default).jsUrl },
       [BrowserEvent.enumeratePages, BrowserEvent.bringToFront index.toNat,
        BrowserEvent.infoProbe index.toNat])

/-- CSS-selector detection of `smart_click` (source line 62): the target
starts with one of a few selector-like tokens or contains a child
combinator. -/
def isCssSelector (t : String) : Bool :=
  strStarts t ("#") || strStarts t (".") || strStarts t ("[") ||
  containsStr t (" > ") || strStarts t ("div[") || strStarts t ("button[")

/-- The text-match test of every smart-click scan (source lines 79-80):
the node's trimmed text equals or includes the target string. -/
def textMatches (target text : String) : Bool :=
  text == target || containsStr text target

/-- Viewport containment (source lines 90-93): the rectangle lies fully
inside the window (`bottom = top + height`, `right = left + width`). -/
def inViewport (vw vh : Rat) (r : Rect) : Bool :=
  ratLe 0 r.top && ratLe 0 r.left &&
  ratLe (ratAdd r.top r.height) vh && ratLe (ratAdd r.left r.width) vw

/-- Center of a rectangle (`left + width/2`, `top + height/2`). -/
def rectCenter (r : Rect) : Rat × Rat :=
  (ratAdd r.left (ratHalf r.width), ratAdd r.top (ratHalf r.height))

/-- What the first scan returns for a match: its center and whether it was
fully inside the viewport. -/
structure ScanMatch where
  x : Rat
  y : Rat
  visible : Bool
deriving Repr, DecidableEq

/-- The first smart-click scan (source lines 72-118): walk the text nodes;
on a match with a parent element and positive area, return it at once when
fully visible, otherwise remember the first such off-screen match and keep
scanning; after the walk return the remembered match, if any. -/
def firstScanAux (vw vh : Rat) (target : String) :
    List TextNode → Option ScanMatch → Option ScanMatch
  | [], best => best
  | n :: rest, best =>
    if textMatches target n.text && n.hasParent &&
        (ratLt 0 n.rect.width && ratLt 0 n.rect.height) then
      let vis := inViewport vw vh n.rect
      let c := rectCenter n.rect
      if vis then some ⟨c.1, c.2, true⟩
      else
        firstScanAux vw vh target rest
          (match best with
           | some b => some b
           | none => some ⟨c.1, c.2, false⟩)
    else
      firstScanAux vw vh target rest best

/-- Entry point of the first scan, starting with no remembered match. -/
def firstScan (vw vh : Rat) (nodes : List TextNode) (target : String) :
    Option ScanMatch :=
  firstScanAux vw vh target nodes none

/-- The scroll scan (source lines 128-146): index of the first text node
matching the target whose parent element is non-null; that element
receives `scrollIntoView(behavior smooth, block center)`. -/
def scrollTargetIdx (nodes : List TextNode) (target : String) : Option Nat :=
  nodes.findIdx? fun n => textMatches target n.text && n.hasParent

/-- The re-scan after scrolling (source lines 153-176): center of the
first text node matching the target with positive area (no parent check
in this scan). -/
def rescanDom (nodes : List TextNode) (target : String) : Option (Rat × Rat) :=
  match nodes.find? (fun n =>
      textMatches target n.text && (ratLt 0 n.rect.width && ratLt 0 n.rect.height)) with
  | some n => some (rectCenter n.rect)
  | none => none

/-- The result dictionary of `smart_click`. -/
inductive ClickResult where
  /-- `clicked/method css_selector`. -/
  | clickedCss (target : String)
  /-- `clicked/method trusted_mouse_click` with coordinates. -/
  | clickedText (target : String) (x y : Rat)
  /-- `clicked/method scroll_then_click` with coordinates. -/
  | clickedAfterScroll (target : String) (x y : Rat)
  /-- an `error` payload. -/
  | clickError (msg : String)
deriving Repr, DecidableEq

/-- The `Could not find text` error message of `smart_click`
(source line 182). -/
def couldNotFindMsg (target : String) : String :=
  "Could not find text: \x27" ++ target ++ "\x27"

/-- `smart_click` (source lines 59-185).  The CSS path delegates to the
driver click; the text path runs the first scan, clicks a visible match
directly, and for an off-screen match requests the scroll, waits 500 ms,
re-scans and clicks at the fresh center — returning the not-found error
when the re-scan misses.  Every failure is a result payload, not a raise.
(The model's scans are total, so the source's final `except` wrapper,
which only fires when an injected scan itself throws, has no arm here.) -/
def smart_click (page : PageModel) (target : String) :
    ClickResult × List ClickEvent :=
  if isCssSelector target then
    match page.cssClick target with
    | Except.ok _ =>
      (ClickResult.clickedCss target, [ClickEvent.cssClick target 5000])
    | Except.error e =>
      (ClickResult.clickError ("Could not click " ++ target ++ ": " ++ e),
       [ClickEvent.cssClick target 5000])
  else
    match firstScan page.viewportW page.viewportH page.preDom target with
    | some m =>
      if m.visible then
        (ClickResult.clickedText target m.x m.y,
         [ClickEvent.textScan, ClickEvent.mouseClick m.x m.y])
      else
        match scrollTargetIdx page.preDom target with
        | some j =>
          match rescanDom page.postDom target with
          | some c =>
            (ClickResult.clickedAfterScroll target c.1 c.2,
             [ClickEvent.textScan, ClickEvent.scrollRequest (some j),
              ClickEvent.settleWait 500, ClickEvent.rescan,
              ClickEvent.mouseClick c.1 c.2])
          | none =>
            (ClickResult.clickError (couldNotFindMsg target),
             [ClickEvent.textScan, ClickEvent.scrollRequest (some j),
              ClickEvent.settleWait 500, ClickEvent.rescan])
        | none =>
          (ClickResult.clickError (couldNotFindMsg target),
           [ClickEvent.textScan, ClickEvent.scrollRequest none])
    | none =>
      (ClickResult.clickError (couldNotFindMsg target), [ClickEvent.textScan])

/-- Success payloads of the dispatcher, one per action branch. -/
inductive ActionResult where
  | navigated (url wait_until : String) (timeout : Int)
  | evaluated (v : JsonValue)
  | screenshotTaken (path : String)
  | content (s : String)
  | clicked (r : ClickResult)
  | filled (selector value : String)
  /-- playwright: the `result/executed true` payload. -/
  | playwrightOk (v : JsonValue)
  /-- playwright: the `error` payload returned without raising. -/
  | playwrightError (msg : String)
deriving Repr, DecidableEq

/-- The four legal `wait_until` values (source line 303). -/
def validWaitConditions : List String :=
  ["load", "domcontentloaded", "networkidle", "commit"]

/-- The `Invalid wait_until` message (source line 305), with the Python
rendering of the list of valid conditions. -/
def invalidWaitUntilMsg (wait_until : String) : String :=
  "Invalid wait_until: " ++ wait_until ++ ". Must be one of: " ++
  "[\x27load\x27, \x27domcontentloaded\x27, \x27networkidle\x27, \x27commit\x27]"

/-- The in-try rejection message of the playwright action (source
line 367), as wrapped by the catch-all handler (source line 380). -/
def pwWrongToolMsg : String :=
  "Playwright script failed: This tool is for Playwright API commands " ++
  "only. Use \x27await page.*\x27 syntax. For JavaScript execution, use " ++
  "browser_evaluate instead."

/-- The action-specific part of `execute_on_active_tab` (source
lines 293-384), acting on the already-resolved active page; returns the
result together with the trace of browser operations the branch issued. -/
def dispatch (page : PageModel) (ts action : String) (kwargs : Params) :
    Except ProxyError ActionResult × List BrowserEvent :=
  if action = "navigate" then
    match getStr? kwargs "url" with
    | none => (Except.error (ProxyError.invalidParameter "URL required for navigate"), [])
    | some url =>
      if strEmpty url then
        (Except.error (ProxyError.invalidParameter "URL required for navigate"), [])
      else
        let wait_until := getStrD kwargs "wait_until" "domcontentloaded"
        let timeout := getIntD kwargs "timeout" 30000
        if validWaitConditions.contains wait_until then
          match page.gotoError with
          | some m =>
            (Except.error (ProxyError.operation m),
             [BrowserEvent.navigateAttempt url wait_until timeout])
          | none =>
            (Except.ok (ActionResult.navigated url wait_until timeout),
             [BrowserEvent.navigateAttempt url wait_until timeout])
        else
          (Except.error (ProxyError.invalidParameter (invalidWaitUntilMsg wait_until)), [])
  else if action = "evaluate" then
    match getStr? kwargs "expression" with
    | none => (Except.error (ProxyError.invalidParameter "Expression required for evaluate"), [])
    | some expr =>
      if strEmpty expr then
        (Except.error (ProxyError.invalidParameter "Expression required for evaluate"), [])
      else
        match page.evalJs expr with
        | Except.ok v => (Except.ok (ActionResult.evaluated v), [BrowserEvent.evalAttempt expr])
        | Except.error m => (Except.error (ProxyError.operation m), [BrowserEvent.evalAttempt expr])
  else if action = "screenshot" then
    -- base64 encoding and the write of the bytes to disk are I/O side
    -- effects outside the model; the returned path is kept.
    let path := getStrD kwargs "path" ("screenshot_" ++ ts ++ ".png")
    let full_page := getBoolD kwargs "full_page" false
    (Except.ok (ActionResult.screenshotTaken path),
     [BrowserEvent.screenshotAttempt full_page])
  else if action = "get_content" then
    -- document.body ? document.body.innerText : ''
    let content := page.bodyText.getD ""
    (Except.ok (ActionResult.content (strTake content 5000)), [BrowserEvent.contentQuery])
  else if action = "click" then
    match pyOr (getStr? kwargs "target") (getStr? kwargs "selector") with
    | none =>
      (Except.error (ProxyError.invalidParameter "Target text or selector required for click"), [])
    | some t =>
      if strEmpty t then
        (Except.error (ProxyError.invalidParameter "Target text or selector required for click"), [])
      else
        let r := smart_click page t
        (Except.ok (ActionResult.clicked r.1), r.2.map BrowserEvent.clickOp)
  else if action = "fill" then
    -- if not selector or value is None: raise
    match getStr? kwargs "selector", getStr? kwargs "value" with
    | some sel, some v =>
      if strEmpty sel then
        (Except.error (ProxyError.invalidParameter "Selector and value required for fill"), [])
      else
        match page.fillError with
        | some m =>
          (Except.error (ProxyError.operation m), [BrowserEvent.fillAttempt sel v])
        | none =>
          (Except.ok (ActionResult.filled sel v), [BrowserEvent.fillAttempt sel v])
    | _, _ =>
      (Except.error (ProxyError.invalidParameter "Selector and value required for fill"), [])
  else if action = "playwright" then
    match getStr? kwargs "script" with
    | none => (Except.error (ProxyError.invalidParameter "Playwright script required"), [])
    | some script =>
      if strEmpty script then
        (Except.error (ProxyError.invalidParameter "Playwright script required"), [])
      else
        -- inside try: the wrong-tool ValueError and any script exception
        -- are both caught and returned as an error payload
        if containsStr script "await page." then
          match page.execPw script with
          | Except.ok v =>
            (Except.ok (ActionResult.playwrightOk v), [BrowserEvent.playwrightExec script])
          | Except.error m =>
            (Except.ok (ActionResult.playwrightError ("Playwright script failed: " ++ m)),
             [BrowserEvent.playwrightExec script])
        else
          (Except.ok (ActionResult.playwrightError pwWrongToolMsg), [])
  else
    (Except.error (ProxyError.unknownAction action), [])

/-- `execute_on_active_tab` (source lines 286-384): resolve the active
page first (source line 291), then dispatch the action against it.  The
trace is the resolution trace followed by the action's own operations. -/
def execute_on_active_tab (contexts : List (List PageModel))
    (ts action : String) (kwargs : Params) :
    Except ProxyError ActionResult × List BrowserEvent :=
  match get_active_page contexts with
  | (Except.error e, es) => (Except.error e, es)
  | (Except.ok apr, es) =>
    let r := dispatch apr.page ts action kwargs
    (r.1, es ++ r.2)

/-- Events belonging to active-page resolution (connection reuse, page
enumeration, focus probes), as opposed to an action's own browser
operations. -/
def isResolutionEvent : BrowserEvent → Bool
  | BrowserEvent.enumeratePages => true
  | BrowserEvent.focusProbe _ => true
  | _ => false

/-- A neutral concrete page for witnesses: not focused, not visible, all
probes succeed, all oracles succeed. -/
def wBase : PageModel where
  url := "http://a"
  title := "A"
  jsUrl := "http://a/js"
  domain := "a"
  hasFocus := false
  visible := false
  probeThrows := false
  infoThrows := false
  bodyText := some ("")
  viewportW := mkRat 800 1
  viewportH := mkRat 600 1
  preDom := []
  postDom := []
  cssClick := fun _ => Except.ok ()
  evalJs := fun _ => Except.ok JsonValue.null
  execPw := fun _ => Except.ok (JsonValue.str ("done"))
  gotoError := none
  fillError := none

/-- A concrete focused-and-visible page. -/
def wFocus : PageModel :=
  { wBase with title := "B", url := "http://b", jsUrl := "http://b/js",
               hasFocus := true, visible := true }

/-- A concrete page whose info probe throws. -/
def wInfoThrow : PageModel :=
  { wBase with infoThrows := true }

/-- A concrete focused page whose only text match lies below the viewport
before scrolling and inside it afterwards. -/
def wOff : PageModel :=
  { wFocus with
    preDom := [⟨"Click me", true, ⟨mkRat 0 1, mkRat 1000 1, mkRat 10 1, mkRat 10 1⟩⟩],
    postDom := [⟨"Click me", true, ⟨mkRat 0 1, mkRat 300 1, mkRat 10 1, mkRat 10 1⟩⟩] }

/-- A concrete 6000-character body text. -/
def longBody : String := String.mk (List.replicate 6000 'x')

/-- A concrete focused page with the 6000-character body text. -/
def wBody : PageModel := { wFocus with bodyText := some longBody }

set_option maxRecDepth 8192

/-! ### Supporting lemmas -/

/-- `ratAdd` agrees with rational addition. -/
theorem ratAdd_eq (a b : Rat) : ratAdd a b = a + b := by
  have ha : (a.den : ℚ) ≠ 0 := by exact_mod_cast a.den_ne_zero
  have hb : (b.den : ℚ) ≠ 0 := by exact_mod_cast b.den_ne_zero
  rw [ratAdd, Rat.mkRat_eq_div]
  conv_rhs => rw [← Rat.num_div_den a, ← Rat.num_div_den b]
  push_cast
  field_simp

/-- `ratHalf` agrees with division by two. -/
theorem ratHalf_eq (a : Rat) : ratHalf a = a / 2 := by
  rw [ratHalf, Rat.mkRat_eq_div]
  conv_rhs => rw [← Rat.num_div_den a]
  push_cast
  rw [div_div, mul_comm]

/-- `ratLe` agrees with the rational order. -/
theorem ratLe_iff (a b : Rat) : ratLe a b = true ↔ a ≤ b := by
  simp only [ratLe, decide_eq_true_iff]
  exact Rat.le_def.symm

/-- `ratLt` agrees with the strict rational order. -/
theorem ratLt_iff (a b : Rat) : ratLt a b = true ↔ a < b := by
  simp only [ratLt, decide_eq_true_iff]
  exact Rat.lt_def.symm

/-- The scan loop returns exactly the first page passing the probe. -/
theorem findActiveAux_fst (i : Nat) (l : List PageModel) :
    (findActiveAux i l).1 = l.find? passesProbe := by
  induction l generalizing i with
  | nil => rfl
  | cons p rest ih =>
    cases hp : passesProbe p with
    | true => simp [findActiveAux, hp, List.find?_cons]
    | false => simp [findActiveAux, hp, List.find?_cons, ih]

/-- Every event the scan loop emits is a focus probe. -/
theorem findActiveAux_events (i : Nat) (l : List PageModel) :
    ∀ e ∈ (findActiveAux i l).2, isResolutionEvent e = true := by
  induction l generalizing i with
  | nil => intro e he; simp [findActiveAux] at he
  | cons p rest ih =>
    intro e he
    cases hp : passesProbe p with
    | true =>
      simp [findActiveAux, hp] at he
      subst he; rfl
    | false =>
      simp [findActiveAux, hp] at he
      rcases he with he | he
      · subst he; rfl
      · exact ih _ e he

/-- Every event of active-page resolution is a resolution event. -/
theorem get_active_page_events (contexts : List (List PageModel)) :
    ∀ e ∈ (get_active_page contexts).2, isResolutionEvent e = true := by
  unfold get_active_page
  cases hfl : contexts.flatten with
  | nil =>
    intro e he
    simp at he
    subst he; rfl
  | cons first rest =>
    intro e he
    simp at he
    rcases he with he | he
    · subst he; rfl
    · exact findActiveAux_events 0 (first :: rest) e he

/-- `find?` returns the element at `i` when it is the only one satisfying
the predicate. -/
theorem find?_eq_get_of_unique {α : Type} (p : α → Bool) (l : List α) (i : Nat)
    (hi : i < l.length) (hpass : p (l.get ⟨i, hi⟩) = true)
    (hothers : ∀ j (hj : j < l.length), j ≠ i → p (l.get ⟨j, hj⟩) = false) :
    l.find? p = some (l.get ⟨i, hi⟩) := by
  induction l generalizing i with
  | nil => exact absurd hi (by simp)
  | cons a rest ih =>
    cases i with
    | zero =>
      simp only [List.get] at hpass
      simp [List.find?_cons, hpass]
    | succ n =>
      have ha : p a = false := by
        have := hothers 0 (by simp) (by simp)
        simpa using this
      have hn : n < rest.length := by simpa using hi
      have hrec := ih n hn (by simpa using hpass) ?_
      · simp [List.find?_cons, ha, hrec]
      · intro j hj hne
        have := hothers (j + 1) (by simpa using Nat.succ_lt_succ hj) (by omega)
        simpa using this

/-- When the flattened page list is nonempty and `find?` succeeds,
`get_active_page` returns the found page with no warning. -/
theorem get_active_page_of_find (contexts : List (List PageModel))
    (p : PageModel) (hne : contexts.flatten ≠ [])
    (hfind : contexts.flatten.find? passesProbe = some p) :
    (get_active_page contexts).1 = Except.ok ⟨p, false⟩ := by
  unfold get_active_page
  cases hfl : contexts.flatten with
  | nil => exact absurd hfl hne
  | cons first rest =>
    rw [hfl] at hfind
    simp [findActiveAux_fst, hfind]

/-- When the flattened page list is nonempty and no probe passes,
`get_active_page` falls back to the first page with the warning flag. -/
theorem get_active_page_fallback_first (contexts : List (List PageModel))
    (first : PageModel) (rest : List PageModel)
    (hfl : contexts.flatten = first :: rest)
    (hfind : contexts.flatten.find? passesProbe = none) :
    (get_active_page contexts).1 = Except.ok ⟨first, true⟩ := by
  unfold get_active_page
  rw [hfl] at hfind ⊢
  simp [findActiveAux_fst, hfind]

/-- With at least one page, resolution always succeeds. -/
theorem get_active_page_ok (contexts : List (List PageModel))
    (first : PageModel) (rest : List PageModel)
    (hfl : contexts.flatten = first :: rest) :
    ∃ apr, (get_active_page contexts).1 = Except.ok apr := by
  unfold get_active_page
  rw [hfl]
  cases h : (findActiveAux 0 (first :: rest)).1 with
  | none => exact ⟨⟨first, true⟩, by simp [h]⟩
  | some p => exact ⟨⟨p, false⟩, by simp [h]⟩

/-- Resolution succeeding lets the dispatcher call be split into the
resolution trace followed by the action branch. -/
theorem execute_eq_dispatch (contexts : List (List PageModel))
    (ts action : String) (kwargs : Params) (apr : ActivePageResult)
    (hp : (get_active_page contexts).1 = Except.ok apr) :
    execute_on_active_tab contexts ts action kwargs =
      ((dispatch apr.page ts action kwargs).1,
       (get_active_page contexts).2 ++ (dispatch apr.page ts action kwargs).2) := by
  unfold execute_on_active_tab
  rcases hge : get_active_page contexts with ⟨r, es⟩
  rw [hge] at hp
  simp only at hp
  subst hp
  rfl

/-- A string other than the empty one is not empty. -/
theorem strEmpty_false (s : String) (h : s ≠ "") : strEmpty s = false := by
  cases s with
  | mk data =>
    cases data with
    | nil => exact absurd rfl h
    | cons c cs => rfl

/-- The page-loop of the tab listing distributes over append, shifting the
running index. -/
theorem listTabsPages_append (k : Nat) (l1 l2 : List PageModel) :
    listTabsPages k (l1 ++ l2) =
      listTabsPages k l1 ++ listTabsPages (k + l1.length) l2 := by
  induction l1 generalizing k with
  | nil => simp [listTabsPages]
  | cons p rest ih =>
    have h : k + 1 + rest.length = k + (rest.length + 1) := by omega
    calc listTabsPages k (p :: rest ++ l2)
        = tabEntry k p :: listTabsPages (k + 1) (rest ++ l2) := rfl
      _ = tabEntry k p ::
            (listTabsPages (k + 1) rest ++ listTabsPages (k + 1 + rest.length) l2) := by
          rw [ih]
      _ = listTabsPages k (p :: rest) ++ listTabsPages (k + (p :: rest).length) l2 := by
          simp only [List.length_cons, h]
          rfl

/-- The context-loop of the tab listing equals the page-loop over the
flattened page list. -/
theorem listTabsCtxs_eq (k : Nat) (cs : List (List PageModel)) :
    listTabsCtxs k cs = listTabsPages k cs.flatten := by
  induction cs generalizing k with
  | nil => rfl
  | cons c rest ih =>
    simp [listTabsCtxs, List.flatten_cons, listTabsPages_append, ih]

/-- Length of the page-loop output. -/
theorem listTabsPages_length (k : Nat) (l : List PageModel) :
    (listTabsPages k l).length = l.length := by
  induction l generalizing k with
  | nil => rfl
  | cons p rest ih => simp [listTabsPages, ih]

/-- Entry `i` of the page-loop output is the entry for page `i`, indexed
from the running start. -/
theorem listTabsPages_get? (k i : Nat) (l : List PageModel) :
    (listTabsPages k l).get? i = (l.get? i).map (fun p => tabEntry (k + i) p) := by
  induction l generalizing k i with
  | nil => simp [listTabsPages]
  | cons p rest ih =>
    cases i with
    | zero => simp [listTabsPages]
    | succ n =>
      simp only [listTabsPages, List.get?_cons_succ]
      rw [ih (k + 1) n]
      have h : k + 1 + n = k + (n + 1) := by omega
      rw [h]

/-- A successful first scan guarantees a text-and-parent match exists. -/
theorem exists_match_of_firstScanAux (vw vh : Rat) (target : String) :
    ∀ (l : List TextNode) (m : ScanMatch),
      firstScanAux vw vh target l none = some m →
      ∃ x ∈ l, (textMatches target x.text && x.hasParent) = true := by
  intro l
  induction l with
  | nil => intro m h; simp [firstScanAux] at h
  | cons n rest ih =>
    intro m h
    cases hstrong : (textMatches target n.text && n.hasParent &&
        (ratLt 0 n.rect.width && ratLt 0 n.rect.height)) with
    | true =>
      refine ⟨n, by simp, ?_⟩
      simp only [Bool.and_eq_true] at hstrong
      simp [hstrong.1.1, hstrong.1.2]
    | false =>
      simp only [firstScanAux, hstrong, Bool.false_eq_true, if_false] at h
      obtain ⟨x, hx, hw⟩ := ih m h
      exact ⟨x, by simp [hx], hw⟩

/-- `findIdx?` finds an index whenever a satisfying element exists. -/
theorem findIdx?_isSome_of_exists {α : Type} (p : α → Bool) :
    ∀ (l : List α) (i : Nat), (∃ x ∈ l, p x = true) →
      ∃ j, l.findIdx? p i = some j := by
  intro l
  induction l with
  | nil => intro i h; simp at h
  | cons a rest ih =>
    intro i h
    cases ha : p a with
    | true =>
      refine ⟨i, ?_⟩
      rw [List.findIdx?_cons, ha]
      simp
    | false =>
      obtain ⟨x, hx, hpx⟩ := h
      rcases List.mem_cons.mp hx with rfl | hx
      · rw [ha] at hpx; exact absurd hpx (by simp)
      · obtain ⟨j, hj⟩ := ih (i + 1) ⟨x, hx, hpx⟩
        refine ⟨j, ?_⟩
        rw [List.findIdx?_cons, ha]
        simp only [Bool.false_eq_true, if_false]
        exact hj

/-- A successful off-screen first scan guarantees the scroll scan finds an
element to scroll. -/
theorem scrollTargetIdx_isSome (page : PageModel) (target : String)
    (m : ScanMatch)
    (hscan : firstScan page.viewportW page.viewportH page.preDom target = some m) :
    ∃ j, scrollTargetIdx page.preDom target = some j := by
  have hex := exists_match_of_firstScanAux page.viewportW page.viewportH target
    page.preDom m hscan
  exact findIdx?_isSome_of_exists _ page.preDom 0 hex

/-! ### Claim theorems -/

/-- C3: for every page set in which exactly one page's probe reports
focused-and-visible, `get_active_page` returns exactly that page,
regardless of its position in the flattened contexts-then-pages order; a
page whose probe throws has `passesProbe = false`, so it is treated as
non-matching and the scan continues past it rather than aborting. -/
theorem getActivePage_unique_focus (contexts : List (List PageModel))
    (i : Nat) (hi : i < contexts.flatten.length)
    (hpass : passesProbe (contexts.flatten.get ⟨i, hi⟩) = true)
    (hothers : ∀ j (hj : j < contexts.flatten.length), j ≠ i →
      passesProbe (contexts.flatten.get ⟨j, hj⟩) = false) :
    (get_active_page contexts).1 =
      Except.ok ⟨contexts.flatten.get ⟨i, hi⟩, false⟩ := by
  have hfind := find?_eq_get_of_unique passesProbe contexts.flatten i hi hpass hothers
  have hne : contexts.flatten ≠ [] := by
    intro h
    rw [h] at hi
    exact absurd hi (by simp)
  exact get_active_page_of_find contexts _ hne hfind

/-- Witness for C3: the focused page is found even in last position of a
two-context enumeration, past a page that does not pass the probe. -/
theorem getActivePage_unique_focus_witness :
    (get_active_page [[wBase], [wFocus]]).1 = Except.ok ⟨wFocus, false⟩ :=
  getActivePage_unique_focus [[wBase], [wFocus]] 1 (by decide) (by decide)
    (by decide)

/-- C4: `get_active_page` fails with the no-pages error exactly when zero
pages exist across all contexts; on a nonempty page set where no page
passes the focus-and-visibility probe it returns the first page in
flattened order, with the fallback warning logged (the flag) and no
error. -/
theorem getActivePage_noPages_and_fallback (contexts : List (List PageModel)) :
    ((get_active_page contexts).1 = Except.error ProxyError.noPages ↔
      contexts.flatten = [])
    ∧ (∀ first rest, contexts.flatten = first :: rest →
        (∀ q ∈ contexts.flatten, passesProbe q = false) →
        (get_active_page contexts).1 = Except.ok ⟨first, true⟩) := by
  constructor
  · constructor
    · intro h
      cases hfl : contexts.flatten with
      | nil => rfl
      | cons first rest =>
        obtain ⟨apr, hok⟩ := get_active_page_ok contexts first rest hfl
        rw [hok] at h
        exact absurd h (by simp)
    · intro h
      unfold get_active_page
      rw [h]
  · intro first rest hfl hall
    apply get_active_page_fallback_first contexts first rest hfl
    refine List.find?_eq_none.mpr ?_
    intro x hx
    simp [hall x hx]

/-- Witness for C4: the empty browser raises; a single unfocused page is
returned as fallback with the warning flag. -/
theorem getActivePage_noPages_and_fallback_witness :
    (get_active_page ([] : List (List PageModel))).1 =
      Except.error ProxyError.noPages
    ∧ (get_active_page [[wBase]]).1 = Except.ok ⟨wBase, true⟩ := by
  constructor
  · exact (getActivePage_noPages_and_fallback []).1.mpr rfl
  · exact (getActivePage_noPages_and_fallback [[wBase]]).2 wBase [] rfl
      (by decide)

/-- C6 (amended: the placeholder title is "(Loading...)", not
"(loading)"): the tab listing never omits a tab and never fails whole; a
tab whose info probe throws contributes, at its ordinal position, a
placeholder entry with title "(Loading...)", the driver's last-known URL,
and `active = false`; a successfully probed tab reports `active` true
exactly when both focus and visibility hold. -/
theorem listTabs_placeholder_spec (contexts : List (List PageModel)) :
    (list_all_tabs contexts).length = contexts.flatten.length
    ∧ ∀ i (hi : i < contexts.flatten.length),
        (list_all_tabs contexts).get? i =
          some (if (contexts.flatten.get ⟨i, hi⟩).infoThrows then
                  { index := i, title := "(Loading...)",
                    url := (contexts.flatten.get ⟨i, hi⟩).url,
                    active := false, domain := "" }
                else
                  { index := i, title := (contexts.flatten.get ⟨i, hi⟩).title,
                    url := (contexts.flatten.get ⟨i, hi⟩).jsUrl,
                    active := (contexts.flatten.get ⟨i, hi⟩).hasFocus &&
                      (contexts.flatten.get ⟨i, hi⟩).visible,
                    domain := (contexts.flatten.get ⟨i, hi⟩).domain }) := by
  constructor
  · rw [list_all_tabs, listTabsCtxs_eq, listTabsPages_length]
  · intro i hi
    rw [list_all_tabs, listTabsCtxs_eq, listTabsPages_get?,
      List.get?_eq_get hi]
    simp [tabEntry]

/-- Witness for C6's amended statement: a mixed listing with one throwing
probe and one focused tab. -/
theorem listTabs_placeholder_spec_witness :
    (list_all_tabs [[wInfoThrow], [wFocus]]).get? 0 =
      some { index := 0, title := "(Loading...)", url := "http://a",
             active := false, domain := "" }
    ∧ (list_all_tabs [[wInfoThrow], [wFocus]]).get? 1 =
      some { index := 1, title := "B", url := "http://b/js",
             active := true, domain := "a" } := by
  have h := listTabs_placeholder_spec [[wInfoThrow], [wFocus]]
  constructor
  · have h0 := h.2 0 (by decide)
    rw [h0]
    decide
  · have h1 := h.2 1 (by decide)
    rw [h1]
    decide

/-- The claim's placeholder title "(loading)" does not match the code: at
a concrete throwing tab, the emitted title is "(Loading...)". -/
theorem listTabs_placeholder_title_counterexample :
    (list_all_tabs [[wInfoThrow]]).map TabInfo.title = [("(Loading...)")]
    ∧ ((list_all_tabs [[wInfoThrow]]).map TabInfo.title = [("(loading)")] →
        False) := by
  constructor
  · rfl
  · intro h
    exact absurd h (by decide)

/-- C8: `switch_to_tab` fails with the index-out-of-range error reporting
the valid bounds `[0, pageCount-1]` exactly when the index is below zero
or at least the page count; on an in-range index it brings that page (at
the flattened ordinal position) to the foreground and reports its live
title and URL, substituting the `Unknown` title and the driver-known URL
when the post-switch info probe throws rather than propagating the
failure. -/
theorem switchTab_spec (contexts : List (List PageModel)) (index : Int) :
    ((switch_to_tab contexts index).1 =
        Except.error (ProxyError.indexOutOfRange index 0
          ((contexts.flatten.length : Int) - 1))
      ↔ (index < 0 ∨ (contexts.flatten.length : Int) ≤ index))
    ∧ (0 ≤ index → index < (contexts.flatten.length : Int) →
        (switch_to_tab contexts index).1 =
          Except.ok (if (contexts.flatten.getD index.toNat default).infoThrows
            then { title := "Unknown",
                   url := (contexts.flatten.getD index.toNat default).url }
            else { title := (contexts.flatten.getD index.toNat default).title,
                   url := (contexts.flatten.getD index.toNat default).jsUrl })
        ∧ BrowserEvent.bringToFront index.toNat ∈
            (switch_to_tab contexts index).2) := by
  by_cases h : index < 0 ∨ (contexts.flatten.length : Int) ≤ index
  · have hc : (decide (index < 0) ||
        decide ((contexts.flatten.length : Int) ≤ index)) = true := by
      cases h with
      | inl h => simp only [decide_eq_true h, Bool.true_or]
      | inr h => simp only [decide_eq_true h, Bool.or_true]
    unfold switch_to_tab
    rw [hc]
    refine ⟨⟨fun _ => h, fun _ => rfl⟩, ?_⟩
    intro h0 h1
    omega
  · have hc : (decide (index < 0) ||
        decide ((contexts.flatten.length : Int) ≤ index)) = false := by
      push_neg at h
      simp only [decide_eq_false (not_lt.mpr h.1), decide_eq_false (not_le.mpr h.2),
        Bool.or_false]
    unfold switch_to_tab
    rw [hc]
    simp only [Bool.false_eq_true, if_false]
    push_neg at h
    constructor
    · constructor
      · intro habs
        cases hth : (contexts.flatten.getD index.toNat default).infoThrows <;>
          rw [hth] at habs <;> simp at habs
      · intro habs
        omega
    · intro h0 h1
      cases hth : (contexts.flatten.getD index.toNat default).infoThrows <;>
        simp [hth]

/-- Witness for C8: both the out-of-range rejection (with bounds) and an
in-range switch whose probe succeeds. -/
theorem switchTab_spec_witness :
    ((switch_to_tab [[wBase, wFocus]] 5).1 =
      Except.error (ProxyError.indexOutOfRange 5 0 1))
    ∧ (switch_to_tab [[wBase, wFocus]] 1).1 =
      Except.ok { title := "B", url := "http://b/js" } := by
  constructor
  · exact (switchTab_spec [[wBase, wFocus]] 5).1.mpr (by decide)
  · have h := ((switchTab_spec [[wBase, wFocus]] 1).2 (by decide) (by decide)).1
    rw [h]
    decide

/-- C5: when the text scan finds a positive-area match but none fully
inside the viewport, `smart_click` requests the smooth block-centered
scroll-into-view on the first text-matching element with a parent, waits
the fixed 500 ms settle delay, re-runs the text scan exactly once, and
clicks at the re-scanned rectangle's center; when the re-scan misses, it
returns the not-found error result instead of clicking. -/
theorem smartClick_offscreen_spec (page : PageModel) (target : String)
    (m : ScanMatch)
    (hcss : isCssSelector target = false)
    (hscan : firstScan page.viewportW page.viewportH page.preDom target = some m)
    (hvis : m.visible = false) :
    ∃ j, scrollTargetIdx page.preDom target = some j
      ∧ (∀ x y, rescanDom page.postDom target = some (x, y) →
          smart_click page target =
            (ClickResult.clickedAfterScroll target x y,
             [ClickEvent.textScan, ClickEvent.scrollRequest (some j),
              ClickEvent.settleWait 500, ClickEvent.rescan,
              ClickEvent.mouseClick x y]))
      ∧ (rescanDom page.postDom target = none →
          smart_click page target =
            (ClickResult.clickError (couldNotFindMsg target),
             [ClickEvent.textScan, ClickEvent.scrollRequest (some j),
              ClickEvent.settleWait 500, ClickEvent.rescan])) := by
  obtain ⟨j, hj⟩ := scrollTargetIdx_isSome page target m hscan
  refine ⟨j, hj, ?_, ?_⟩
  · intro x y hr
    unfold smart_click
    simp only [hcss, Bool.false_eq_true, if_false, hscan, hvis, hj, hr]
  · intro hr
    unfold smart_click
    simp only [hcss, Bool.false_eq_true, if_false, hscan, hvis, hj, hr]

/-- Witness for C5: the single off-screen match is scrolled, waited on,
re-scanned once, and the click lands on the post-scroll center (305), not
the pre-scroll one (1005). -/
theorem smartClick_offscreen_spec_witness :
    smart_click wOff ("Click me") =
      (ClickResult.clickedAfterScroll ("Click me") (mkRat 5 1) (mkRat 305 1),
       [ClickEvent.textScan, ClickEvent.scrollRequest (some 0),
        ClickEvent.settleWait 500, ClickEvent.rescan,
        ClickEvent.mouseClick (mkRat 5 1) (mkRat 305 1)]) := by
  obtain ⟨j, hj, hsome, -⟩ := smartClick_offscreen_spec wOff ("Click me")
    ⟨mkRat 5 1, mkRat 1005 1, false⟩ (by decide) (by decide) rfl
  have h0 : scrollTargetIdx wOff.preDom ("Click me") = some 0 := by decide
  rw [hj] at h0
  injection h0 with h0
  subst h0
  exact hsome (mkRat 5 1) (mkRat 305 1) (by decide)

/-- The navigate branch of the dispatcher, exposed over the parameter
lookups (the action-name comparisons reduce definitionally). -/
theorem dispatch_navigate_eq (page : PageModel) (ts : String) (kwargs : Params) :
    dispatch page ts "navigate" kwargs =
      (match getStr? kwargs "url" with
       | none =>
         (Except.error (ProxyError.invalidParameter "URL required for navigate"), [])
       | some url =>
         if strEmpty url then
           (Except.error (ProxyError.invalidParameter "URL required for navigate"), [])
         else
           if validWaitConditions.contains
               (getStrD kwargs "wait_until" "domcontentloaded") then
             match page.gotoError with
             | some m =>
               (Except.error (ProxyError.operation m),
                [BrowserEvent.navigateAttempt url
                  (getStrD kwargs "wait_until" "domcontentloaded")
                  (getIntD kwargs "timeout" 30000)])
             | none =>
               (Except.ok (ActionResult.navigated url
                  (getStrD kwargs "wait_until" "domcontentloaded")
                  (getIntD kwargs "timeout" 30000)),
                [BrowserEvent.navigateAttempt url
                  (getStrD kwargs "wait_until" "domcontentloaded")
                  (getIntD kwargs "timeout" 30000)])
           else
             (Except.error (ProxyError.invalidParameter
                (invalidWaitUntilMsg (getStrD kwargs "wait_until" "domcontentloaded"))),
              [])) := rfl

/-- The evaluate branch of the dispatcher, exposed over the parameter
lookups. -/
theorem dispatch_evaluate_eq (page : PageModel) (ts : String) (kwargs : Params) :
    dispatch page ts "evaluate" kwargs =
      (match getStr? kwargs "expression" with
       | none =>
         (Except.error (ProxyError.invalidParameter "Expression required for evaluate"), [])
       | some expr =>
         if strEmpty expr then
           (Except.error (ProxyError.invalidParameter "Expression required for evaluate"), [])
         else
           match page.evalJs expr with
           | Except.ok v =>
             (Except.ok (ActionResult.evaluated v), [BrowserEvent.evalAttempt expr])
           | Except.error m =>
             (Except.error (ProxyError.operation m), [BrowserEvent.evalAttempt expr])) := rfl

/-- The click branch of the dispatcher, exposed over the parameter
lookups. -/
theorem dispatch_click_eq (page : PageModel) (ts : String) (kwargs : Params) :
    dispatch page ts "click" kwargs =
      (match pyOr (getStr? kwargs "target") (getStr? kwargs "selector") with
       | none =>
         (Except.error (ProxyError.invalidParameter
            "Target text or selector required for click"), [])
       | some t =>
         if strEmpty t then
           (Except.error (ProxyError.invalidParameter
              "Target text or selector required for click"), [])
         else
           (Except.ok (ActionResult.clicked (smart_click page t).1),
            (smart_click page t).2.map BrowserEvent.clickOp)) := rfl

/-- The fill branch of the dispatcher, exposed over the parameter
lookups. -/
theorem dispatch_fill_eq (page : PageModel) (ts : String) (kwargs : Params) :
    dispatch page ts "fill" kwargs =
      (match getStr? kwargs "selector", getStr? kwargs "value" with
       | some sel, some v =>
         if strEmpty sel then
           (Except.error (ProxyError.invalidParameter
              "Selector and value required for fill"), [])
         else
           match page.fillError with
           | some m =>
             (Except.error (ProxyError.operation m), [BrowserEvent.fillAttempt sel v])
           | none =>
             (Except.ok (ActionResult.filled sel v), [BrowserEvent.fillAttempt sel v])
       | _, _ =>
         (Except.error (ProxyError.invalidParameter
            "Selector and value required for fill"), [])) := rfl

/-- The playwright branch of the dispatcher, exposed over the parameter
lookups. -/
theorem dispatch_playwright_eq (page : PageModel) (ts : String) (kwargs : Params) :
    dispatch page ts "playwright" kwargs =
      (match getStr? kwargs "script" with
       | none =>
         (Except.error (ProxyError.invalidParameter "Playwright script required"), [])
       | some script =>
         if strEmpty script then
           (Except.error (ProxyError.invalidParameter "Playwright script required"), [])
         else
           if containsStr script "await page." then
             match page.execPw script with
             | Except.ok v =>
               (Except.ok (ActionResult.playwrightOk v),
                [BrowserEvent.playwrightExec script])
             | Except.error m =>
               (Except.ok (ActionResult.playwrightError
                  ("Playwright script failed: " ++ m)),
                [BrowserEvent.playwrightExec script])
           else
             (Except.ok (ActionResult.playwrightError pwWrongToolMsg), [])) := rfl

/-- The claim that no browser interaction precedes a parameter error
fails on the code: with one focused page, navigate with an invalid
`wait_until` is rejected with the parameter error, yet the recorded trace
shows that page enumeration and a focus probe already happened — only the
navigation attempt itself is absent. -/
theorem paramError_before_browser_counterexample :
    execute_on_active_tab [[wFocus]] "ts" "navigate"
        [("url", ParamValue.str ("http://e")),
         ("wait_until", ParamValue.str ("invalid"))] =
      (Except.error (ProxyError.invalidParameter (invalidWaitUntilMsg ("invalid"))),
       [BrowserEvent.enumeratePages, BrowserEvent.focusProbe 0]) := by
  decide

/-- C1 amended: a parameter error is raised before the action performs
any of its own browser operations — the whole trace of such a call is
exactly the active-page-resolution trace, which consists only of page
enumeration and focus probes; the resolution (connection reuse, page
enumeration, focus probing) does happen first. -/
theorem paramErrors_after_resolution (contexts : List (List PageModel))
    (ts : String) (kwargs : Params) (apr : ActivePageResult)
    (hp : (get_active_page contexts).1 = Except.ok apr) :
    (∀ e ∈ (get_active_page contexts).2, isResolutionEvent e = true)
    ∧ (strFalsy (getStr? kwargs "url") = true →
        execute_on_active_tab contexts ts "navigate" kwargs =
          (Except.error (ProxyError.invalidParameter "URL required for navigate"),
           (get_active_page contexts).2))
    ∧ (∀ url, getStr? kwargs "url" = some url → strEmpty url = false →
        validWaitConditions.contains
          (getStrD kwargs "wait_until" "domcontentloaded") = false →
        execute_on_active_tab contexts ts "navigate" kwargs =
          (Except.error (ProxyError.invalidParameter
            (invalidWaitUntilMsg (getStrD kwargs "wait_until" "domcontentloaded"))),
           (get_active_page contexts).2))
    ∧ (strFalsy (getStr? kwargs "expression") = true →
        execute_on_active_tab contexts ts "evaluate" kwargs =
          (Except.error (ProxyError.invalidParameter "Expression required for evaluate"),
           (get_active_page contexts).2))
    ∧ (strFalsy (pyOr (getStr? kwargs "target") (getStr? kwargs "selector")) = true →
        execute_on_active_tab contexts ts "click" kwargs =
          (Except.error (ProxyError.invalidParameter
            "Target text or selector required for click"),
           (get_active_page contexts).2))
    ∧ ((strFalsy (getStr? kwargs "selector") = true ∨
          getStr? kwargs "value" = none) →
        execute_on_active_tab contexts ts "fill" kwargs =
          (Except.error (ProxyError.invalidParameter
            "Selector and value required for fill"),
           (get_active_page contexts).2))
    ∧ (strFalsy (getStr? kwargs "script") = true →
        execute_on_active_tab contexts ts "playwright" kwargs =
          (Except.error (ProxyError.invalidParameter "Playwright script required"),
           (get_active_page contexts).2)) := by
  refine ⟨get_active_page_events contexts, ?_, ?_, ?_, ?_, ?_, ?_⟩
  · intro h
    rw [execute_eq_dispatch contexts ts "navigate" kwargs apr hp,
      dispatch_navigate_eq]
    cases hu : getStr? kwargs "url" with
    | none => simp
    | some u =>
      rw [hu] at h
      simp only [strFalsy] at h
      simp [h]
  · intro url hu hne hw
    rw [execute_eq_dispatch contexts ts "navigate" kwargs apr hp,
      dispatch_navigate_eq, hu]
    simp only [hne, Bool.false_eq_true, if_false, hw]
    simp
  · intro h
    rw [execute_eq_dispatch contexts ts "evaluate" kwargs apr hp,
      dispatch_evaluate_eq]
    cases hu : getStr? kwargs "expression" with
    | none => simp
    | some u =>
      rw [hu] at h
      simp only [strFalsy] at h
      simp [h]
  · intro h
    rw [execute_eq_dispatch contexts ts "click" kwargs apr hp,
      dispatch_click_eq]
    cases hu : pyOr (getStr? kwargs "target") (getStr? kwargs "selector") with
    | none => simp
    | some u =>
      rw [hu] at h
      simp only [strFalsy] at h
      simp [h]
  · intro h
    rw [execute_eq_dispatch contexts ts "fill" kwargs apr hp,
      dispatch_fill_eq]
    cases hs : getStr? kwargs "selector" with
    | none => simp
    | some sel =>
      cases hv : getStr? kwargs "value" with
      | none => simp
      | some v =>
        rcases h with h | h
        · rw [hs] at h
          simp only [strFalsy] at h
          simp [h]
        · rw [hv] at h
          exact absurd h (by simp)
  · intro h
    rw [execute_eq_dispatch contexts ts "playwright" kwargs apr hp,
      dispatch_playwright_eq]
    cases hu : getStr? kwargs "script" with
    | none => simp
    | some u =>
      rw [hu] at h
      simp only [strFalsy] at h
      simp [h]

/-- Witness for C1's amended statement: on a focused page, navigate with
an undefined wait condition fails with the parameter error and the trace
is exactly the resolution trace. -/
theorem paramErrors_after_resolution_witness :
    execute_on_active_tab [[wFocus]] "ts2" "navigate"
        [("url", ParamValue.str ("http://e")),
         ("wait_until", ParamValue.str ("bogus"))] =
      (Except.error (ProxyError.invalidParameter (invalidWaitUntilMsg ("bogus"))),
       (get_active_page [[wFocus]]).2) :=
  (paramErrors_after_resolution [[wFocus]] "ts2"
      [("url", ParamValue.str ("http://e")),
       ("wait_until", ParamValue.str ("bogus"))]
      ⟨wFocus, false⟩ rfl).2.2.1 "http://e" rfl rfl (by decide)

/-- The claimed wait action fails on the code: with one focused page, the
wait action returns the unknown-action error rather than succeeding. -/
theorem wait_action_counterexample :
    (execute_on_active_tab [[wFocus]] "ts" "wait" []).1 =
      Except.error (ProxyError.unknownAction ("wait")) := by
  decide

/-- C2 amended: the dispatcher has no wait branch; once the active page
is resolved, a wait invocation falls through to the unknown-action error
for every parameter mapping. -/
theorem wait_action_unknown (contexts : List (List PageModel)) (ts : String)
    (kwargs : Params) (apr : ActivePageResult)
    (hp : (get_active_page contexts).1 = Except.ok apr) :
    (execute_on_active_tab contexts ts "wait" kwargs).1 =
      Except.error (ProxyError.unknownAction ("wait")) := by
  rw [execute_eq_dispatch contexts ts "wait" kwargs apr hp]
  rfl

/-- Witness for C2's amended statement, with the spec's default timeout
supplied as a parameter. -/
theorem wait_action_unknown_witness :
    (execute_on_active_tab [[wBase]] "t0" "wait"
        [("timeout", ParamValue.int 3000)]).1 =
      Except.error (ProxyError.unknownAction ("wait")) :=
  wait_action_unknown [[wBase]] "t0" [("timeout", ParamValue.int 3000)]
    ⟨wBase, true⟩ rfl

/-- C7: `get_content` returns the body text truncated to exactly its
first 5000 characters with nothing appended: the returned content is the
5000-character-or-shorter initial segment; at length at least 5000 the
result has length exactly 5000, and shorter text is returned unchanged. -/
theorem getContent_truncation (contexts : List (List PageModel)) (ts : String)
    (kwargs : Params) (apr : ActivePageResult)
    (hp : (get_active_page contexts).1 = Except.ok apr)
    (s : String) (hs : apr.page.bodyText = some s) :
    (execute_on_active_tab contexts ts "get_content" kwargs).1 =
      Except.ok (ActionResult.content (strTake s 5000))
    ∧ (strTake s 5000).data = s.data.take 5000
    ∧ (5000 ≤ s.length → (strTake s 5000).length = 5000)
    ∧ (s.length ≤ 5000 → strTake s 5000 = s) := by
  refine ⟨?_, rfl, ?_, ?_⟩
  · rw [execute_eq_dispatch contexts ts "get_content" kwargs apr hp]
    have hd : dispatch apr.page ts "get_content" kwargs =
        (Except.ok (ActionResult.content
          (strTake (apr.page.bodyText.getD "") 5000)),
         [BrowserEvent.contentQuery]) := rfl
    rw [hd, hs]
    rfl
  · intro hlen
    have h1 : (strTake s 5000).length = (s.data.take 5000).length := rfl
    rw [h1, List.length_take]
    exact Nat.min_eq_left hlen
  · intro hlen
    unfold strTake
    rw [List.take_of_length_le hlen]

/-- Witness for C7: a 6000-character body yields content of length
exactly 5000. -/
theorem getContent_truncation_witness :
    (execute_on_active_tab [[wBody]] "ts" "get_content" []).1 =
      Except.ok (ActionResult.content (strTake longBody 5000))
    ∧ 5000 ≤ longBody.length
    ∧ (strTake longBody 5000).length = 5000 := by
  have h := getContent_truncation [[wBody]] "ts" [] ⟨wBody, false⟩ rfl longBody rfl
  have hlen : 5000 ≤ longBody.length := by
    show 5000 ≤ (List.replicate 6000 'x').length
    rw [List.length_replicate]
    omega
  exact ⟨h.1, hlen, h.2.2.1 hlen⟩

/-- C9: the extra playwright action fails when the script parameter is
missing, returns an error payload — without raising — for a script not
containing "await page.", and otherwise runs the script against the
active page, returning the result-and-executed payload on success and an
error payload on any script exception; no script failure escapes as a
raised error. -/
theorem playwright_action_spec (contexts : List (List PageModel)) (ts : String)
    (kwargs : Params) (apr : ActivePageResult)
    (hp : (get_active_page contexts).1 = Except.ok apr) :
    (strFalsy (getStr? kwargs "script") = true →
      (execute_on_active_tab contexts ts "playwright" kwargs).1 =
        Except.error (ProxyError.invalidParameter "Playwright script required"))
    ∧ (∀ s, getStr? kwargs "script" = some s → strEmpty s = false →
        containsStr s "await page." = false →
        (execute_on_active_tab contexts ts "playwright" kwargs).1 =
          Except.ok (ActionResult.playwrightError pwWrongToolMsg))
    ∧ (∀ s v, getStr? kwargs "script" = some s → strEmpty s = false →
        containsStr s "await page." = true → apr.page.execPw s = Except.ok v →
        (execute_on_active_tab contexts ts "playwright" kwargs).1 =
          Except.ok (ActionResult.playwrightOk v))
    ∧ (∀ s msg, getStr? kwargs "script" = some s → strEmpty s = false →
        containsStr s "await page." = true →
        apr.page.execPw s = Except.error msg →
        (execute_on_active_tab contexts ts "playwright" kwargs).1 =
          Except.ok (ActionResult.playwrightError
            ("Playwright script failed: " ++ msg))) := by
  refine ⟨?_, ?_, ?_, ?_⟩
  · intro h
    rw [execute_eq_dispatch contexts ts "playwright" kwargs apr hp,
      dispatch_playwright_eq]
    cases hu : getStr? kwargs "script" with
    | none => simp
    | some u =>
      rw [hu] at h
      simp only [strFalsy] at h
      simp [h]
  · intro s hsc hne hcon
    rw [execute_eq_dispatch contexts ts "playwright" kwargs apr hp,
      dispatch_playwright_eq, hsc]
    simp [hne, hcon]
  · intro s v hsc hne hcon hpw
    rw [execute_eq_dispatch contexts ts "playwright" kwargs apr hp,
      dispatch_playwright_eq, hsc]
    simp [hne, hcon, hpw]
  · intro s msg hsc hne hcon hpw
    rw [execute_eq_dispatch contexts ts "playwright" kwargs apr hp,
      dispatch_playwright_eq, hsc]
    simp [hne, hcon, hpw]

/-- Witness for C9: a missing script is rejected; a non-playwright script
yields the error payload; a well-formed script runs and returns the
executed payload. -/
theorem playwright_action_spec_witness :
    (execute_on_active_tab [[wFocus]] "ts" "playwright" []).1 =
      Except.error (ProxyError.invalidParameter "Playwright script required")
    ∧ (execute_on_active_tab [[wFocus]] "ts" "playwright"
        [("script", ParamValue.str ("x = 1"))]).1 =
      Except.ok (ActionResult.playwrightError pwWrongToolMsg)
    ∧ (execute_on_active_tab [[wFocus]] "ts" "playwright"
        [("script", ParamValue.str ("await page.mouse.wheel(0, 300)"))]).1 =
      Except.ok (ActionResult.playwrightOk (JsonValue.str ("done"))) := by
  have h1 := (playwright_action_spec [[wFocus]] "ts" [] ⟨wFocus, false⟩ rfl).1 rfl
  have h2 := (playwright_action_spec [[wFocus]] "ts"
      [("script", ParamValue.str ("x = 1"))] ⟨wFocus, false⟩ rfl).2.1
      "x = 1" rfl rfl (by decide)
  have h3 := (playwright_action_spec [[wFocus]] "ts"
      [("script", ParamValue.str ("await page.mouse.wheel(0, 300)"))]
      ⟨wFocus, false⟩ rfl).2.2.1
      "await page.mouse.wheel(0, 300)" (JsonValue.str ("done")) rfl rfl
      (by decide) rfl
  exact ⟨h1, h2, h3⟩

/-- C10: at the dispatcher boundary a required string parameter supplied
as the empty string is treated as absent — navigate/evaluate/click/fill
with the empty required string each fail with the parameter error — while
fill with an empty (but present) value is accepted and proceeds to the
fill attempt. -/
theorem emptyString_params_spec (contexts : List (List PageModel)) (ts : String)
    (apr : ActivePageResult)
    (hp : (get_active_page contexts).1 = Except.ok apr) :
    (execute_on_active_tab contexts ts "navigate"
        [("url", ParamValue.str (""))]).1 =
      Except.error (ProxyError.invalidParameter "URL required for navigate")
    ∧ (execute_on_active_tab contexts ts "evaluate"
        [("expression", ParamValue.str (""))]).1 =
      Except.error (ProxyError.invalidParameter "Expression required for evaluate")
    ∧ (execute_on_active_tab contexts ts "click"
        [("target", ParamValue.str (""))]).1 =
      Except.error (ProxyError.invalidParameter
        "Target text or selector required for click")
    ∧ (execute_on_active_tab contexts ts "fill"
        [("selector", ParamValue.str ("")), ("value", ParamValue.str ("x"))]).1 =
      Except.error (ProxyError.invalidParameter "Selector and value required for fill")
    ∧ (∀ sel, strEmpty sel = false →
        BrowserEvent.fillAttempt sel "" ∈
          (execute_on_active_tab contexts ts "fill"
            [("selector", ParamValue.str sel), ("value", ParamValue.str (""))]).2
        ∧ (execute_on_active_tab contexts ts "fill"
            [("selector", ParamValue.str sel), ("value", ParamValue.str (""))]).1 ≠
          Except.error (ProxyError.invalidParameter
            "Selector and value required for fill")) := by
  refine ⟨?_, ?_, ?_, ?_, ?_⟩
  · rw [execute_eq_dispatch contexts ts "navigate" _ apr hp]
    rfl
  · rw [execute_eq_dispatch contexts ts "evaluate" _ apr hp]
    rfl
  · rw [execute_eq_dispatch contexts ts "click" _ apr hp]
    rfl
  · rw [execute_eq_dispatch contexts ts "fill" _ apr hp]
    rfl
  · intro sel hsel
    rw [execute_eq_dispatch contexts ts "fill" _ apr hp]
    have hd : dispatch apr.page ts "fill"
        [("selector", ParamValue.str sel), ("value", ParamValue.str (""))] =
        (if strEmpty sel then
          (Except.error (ProxyError.invalidParameter
            "Selector and value required for fill"), [])
         else
           match apr.page.fillError with
           | some m =>
             (Except.error (ProxyError.operation m), [BrowserEvent.fillAttempt sel ""])
           | none =>
             (Except.ok (ActionResult.filled sel ""),
              [BrowserEvent.fillAttempt sel ""])) := rfl
    rw [hd, hsel]
    simp only [Bool.false_eq_true, if_false]
    cases hf : apr.page.fillError with
    | none => simp
    | some m => simp

/-- Witness for C10: on a focused page, each empty required string is
rejected and the empty fill value proceeds to the attempt. -/
theorem emptyString_params_spec_witness :
    (execute_on_active_tab [[wFocus]] "ts" "navigate"
        [("url", ParamValue.str (""))]).1 =
      Except.error (ProxyError.invalidParameter "URL required for navigate")
    ∧ BrowserEvent.fillAttempt "#q" "" ∈
        (execute_on_active_tab [[wFocus]] "ts" "fill"
          [("selector", ParamValue.str ("#q")), ("value", ParamValue.str (""))]).2 := by
  have h := emptyString_params_spec [[wFocus]] "ts" ⟨wFocus, false⟩ rfl
  exact ⟨h.1, (h.2.2.2.2 "#q" rfl).1⟩

end BrowserProxy
